import Mathlib

/-!
Verification of the image-transformation API in `src/main.py` (FastAPI + PIL).

The embedding models:
* JSON-like request bodies (`JVal`, `Data`) as passed to `validate_input`;
* the validator `validate_input` (lines 50-98 of main.py);
* the transform engine `process_image` (lines 100-110);
* the endpoint handler `transform_image` (lines 130-182), including the
  Python exception flow: `binascii.Error` is a subclass of `ValueError`,
  `UnidentifiedImageError` is a subclass of `OSError`, and FastAPI's
  `HTTPException` is a subclass of `Exception`, so a bare
  `except Exception` catches an `HTTPException` raised inside the `try`;
* CPython's `base64.b64decode` (default `validate=False`, non-strict
  `binascii.a2b_base64`) as an executable function on strings;
* the parts of PIL the handler uses, at the level of image header data
  (width, height, mode): `Image.open` (PNG header recognition),
  `convert("L")`, `resize`, `rotate(angle, expand=True)`, and JPEG `save`.
  Byte-level pixel data and JPEG entropy coding are external to the
  repository and are abstracted: a serialized image is kept as the pair
  of its format name and the image it encodes.
-/

namespace ImageAPI

/-- A JSON value as it appears in a parsed request body.  The request
fields used by `main.py` are strings, integers, booleans and null;
Python `bool` is a subclass of `int`, which matters for comparisons. -/
inductive JVal where
  | null : JVal
  | bool (b : Bool) : JVal
  | int (n : Int) : JVal
  | str (s : String) : JVal
deriving DecidableEq, Repr

/-- A request body: a finite string-keyed mapping, as the `dict` that
FastAPI passes to `validate_input` via `Body(...)`.  Lookup takes the
first binding, so duplicate keys denote the same mapping as deduplication. -/
def Data := List (String × JVal)
deriving DecidableEq

/-- `k in data` (Python key-membership test). -/
def Data.containsKey (d : Data) (k : String) : Bool :=
  (List.lookup k d).isSome

/-- `data.get(k)`: the value at `k`, or Python `None` when absent. -/
def pyGet (d : Data) (k : String) : JVal :=
  (List.lookup k d).getD JVal.null

/-- `data.get(k, dflt)`: the value at `k`, or `dflt` when absent. -/
def pyGetD (d : Data) (k : String) (dflt : JVal) : JVal :=
  (List.lookup k d).getD dflt

/-- The payload of an HTTP error response.  `envelope` is the
`{"error": ..., "correct_format": {...}}` dict built by `validate_input`;
`message` is the `{"detail": ...}` dict built by `transform_image`. -/
inductive Detail where
  | envelope (error : String) (correct_format : List (String × String)) : Detail
  | message (detail : String) : Detail
deriving DecidableEq, Repr

/-- An `HTTPException(status_code=..., detail=...)` as surfaced to the
client: the HTTP status code and the detail payload. -/
structure HTTPError where
  status_code : Nat
  detail : Detail
deriving DecidableEq, Repr

/-- The Python exceptions that can arise inside the `try` block of
`transform_image`.  The constructors record the exception class (as
relevant to the `except` clauses) and `str(e)`. -/
inductive PyExc where
  | binasciiError (msg : String) : PyExc
  | valueError (msg : String) : PyExc
  | typeError (msg : String) : PyExc
  | unidentifiedImageError (msg : String) : PyExc
  | osError (msg : String) : PyExc
  | httpException (status_code : Nat) (detail : Detail) : PyExc
deriving DecidableEq, Repr

/-- Whether the exception is caught by `except ValueError`.
`binascii.Error` is a documented subclass of `ValueError`. -/
def PyExc.isValueError : PyExc → Bool
  | .binasciiError _ => true
  | .valueError _ => true
  | _ => false

/-- Whether the exception is caught by `except UnidentifiedImageError`. -/
def PyExc.isUnidentifiedImageError : PyExc → Bool
  | .unidentifiedImageError _ => true
  | _ => false

/-- An apostrophe, kept out of source literals. -/
def sq : String := String.singleton (Char.ofNat 39)

/-- Python `repr` of a `detail` payload, as interpolated by f-strings.
Only the `message` shape ever reaches `str()` in the handler (via the
`HTTPException` raised at line 148 of main.py). -/
def Detail.pyRepr : Detail → String
  | .message m => "\x7b" ++ sq ++ "detail" ++ sq ++ ": " ++ sq ++ m ++ sq ++ "\x7d"
  | .envelope e _ => "\x7b" ++ sq ++ "error" ++ sq ++ ": " ++ sq ++ e ++ sq ++ ", ...\x7d"

/-- Python `str(e)` for each modelled exception.  Starlette's
`HTTPException.__str__` returns `f"{self.status_code}: {self.detail}"`. -/
def PyExc.pyStr : PyExc → String
  | .binasciiError m => m
  | .valueError m => m
  | .typeError m => m
  | .unidentifiedImageError m => m
  | .osError m => m
  | .httpException st d => toString st ++ ": " ++ d.pyRepr

/-! ### base64

`base64.b64decode(s)` with the default `validate=False` first encodes the
`str` as ASCII (non-ASCII raises `ValueError`), then runs non-strict
`binascii.a2b_base64`: characters outside the alphabet are discarded; a
`=` at quad position 0 or 1 is discarded; a `=` at quad position 2
terminates the stream if the next meaningful character is another `=`
and raises `Incorrect padding` otherwise; a `=` at quad position 3
terminates the stream; at end of input a quad position of 1 raises the
`cannot be 1 more than a multiple of 4` error and a quad position of 2
or 3 raises `Incorrect padding`. -/

/-- The 6-bit value of a standard-alphabet base64 character, if any. -/
def b64CharVal (c : Char) : Option Nat :=
  if 65 ≤ c.toNat ∧ c.toNat ≤ 90 then some (c.toNat - 65)
  else if 97 ≤ c.toNat ∧ c.toNat ≤ 122 then some (c.toNat - 97 + 26)
  else if 48 ≤ c.toNat ∧ c.toNat ≤ 57 then some (c.toNat - 48 + 52)
  else if c = '+' then some 62
  else if c = '/' then some 63
  else none

/-- Emit the output bytes of one base64 quad `[a, b, c, d]`. -/
def b64Quad (a b c d : Nat) : List Nat :=
  [a * 4 + b / 16, (b % 16) * 16 + c / 4, (c % 4) * 64 + d]

/-- The `Incorrect padding` decode error. -/
def incorrectPadding : PyExc := .binasciiError "Incorrect padding"

/-- The decode error for a data-character count of 1 more than a
multiple of 4, as formatted by `binascii`. -/
def oneMoreErr (n : Nat) : PyExc :=
  .binasciiError ("Invalid base64-encoded string: number of data characters (" ++
    toString n ++ ") cannot be 1 more than a multiple of 4")

/-- After a `=` at quad position 2: scan for the closing `=`, skipping
discarded characters; a meaningful non-`=` character or end of input is
`Incorrect padding`. -/
def b64ScanPad : List Char → Bool
  | [] => false
  | c :: cs =>
    if c = '=' then true
    else if (b64CharVal c).isSome then false
    else b64ScanPad cs

/-- The main loop of non-strict `a2b_base64`: `acc` are the bytes
emitted so far, `buf` the 6-bit values of the current quad (length at
most 3), `n` the count of data characters consumed. -/
def b64Loop : List Char → List Nat → List Nat → Nat → Except PyExc (List Nat)
  | [], acc, buf, n =>
    match buf with
    | [] => .ok acc
    | [_] => .error (oneMoreErr n)
    | _ => .error incorrectPadding
  | c :: cs, acc, buf, n =>
    match b64CharVal c with
    | some v =>
      match buf with
      | [a, b, c6] => b64Loop cs (acc ++ b64Quad a b c6 v) [] (n + 1)
      | _ => b64Loop cs acc (buf ++ [v]) (n + 1)
    | none =>
      if c = '=' then
        match buf with
        | [a, b] =>
          if b64ScanPad cs then .ok (acc ++ [a * 4 + b / 16])
          else .error incorrectPadding
        | [a, b, c6] => .ok (acc ++ [a * 4 + b / 16, (b % 16) * 16 + c6 / 4])
        | _ => b64Loop cs acc buf n
      else b64Loop cs acc buf n

/-- `base64.b64decode(s)` on a `str` argument, default options. -/
def b64decode (s : String) : Except PyExc (List Nat) :=
  if s.toList.all (fun c => c.toNat ≤ 127) then
    b64Loop s.toList [] [] 0
  else
    .error (.valueError "string argument should contain only ASCII characters")

/-- `base64.b64decode` applied to an arbitrary JSON value: non-string
arguments raise `TypeError`. -/
def b64decodeJ : JVal → Except PyExc (List Nat)
  | .str s => b64decode s
  | .int _ => .error (.typeError ("argument should be a bytes-like object or ASCII string, not " ++ sq ++ "int" ++ sq))
  | .bool _ => .error (.typeError ("argument should be a bytes-like object or ASCII string, not " ++ sq ++ "bool" ++ sq))
  | .null => .error (.typeError ("argument should be a bytes-like object or ASCII string, not " ++ sq ++ "NoneType" ++ sq))

/-! ### PIL model

An in-memory image is modelled by its header data: width, height and
mode.  `Image.open` parses the header lazily; the model recognizes the
PNG container (signature, IHDR chunk, big-endian dimensions, colour
type), which is the format exercised here, and classifies everything
else as `UnidentifiedImageError` — faithful to PIL at the granularity
the handler observes. -/

/-- An in-memory PIL image, at header granularity. -/
structure PILImage where
  width : Int
  height : Int
  mode : String
deriving DecidableEq, Repr

/-- `image.convert("L")`: single-channel luminance, same dimensions. -/
def PILImage.convertL (img : PILImage) : PILImage :=
  { img with mode := "L" }

/-- Big-endian 32-bit integer from four bytes. -/
def be32 (b0 b1 b2 b3 : Nat) : Int :=
  ((b0 * 256 + b1) * 256 + b2) * 256 + b3

/-- The PIL mode assigned to a PNG colour type (greyscale, truecolour,
truecolour with alpha; other colour types are outside the model). -/
def pngMode (colourType : Nat) : Option String :=
  if colourType = 0 then some "L"
  else if colourType = 2 then some "RGB"
  else if colourType = 6 then some "RGBA"
  else none

/-- `Image.open(io.BytesIO(bs))`: recognize the PNG header (8-byte
signature, IHDR chunk with big-endian width and height and a colour
type) and raise `UnidentifiedImageError` otherwise — in particular on
empty bytes and on bytes that are not an image. -/
def imageOpen : List Nat → Except PyExc PILImage
  | 137 :: 80 :: 78 :: 71 :: 13 :: 10 :: 26 :: 10 ::
    _l0 :: _l1 :: _l2 :: _l3 :: 73 :: 72 :: 68 :: 82 ::
    w0 :: w1 :: w2 :: w3 :: h0 :: h1 :: h2 :: h3 :: _depth :: ct :: _rest =>
    if 0 < be32 w0 w1 w2 w3 ∧ 0 < be32 h0 h1 h2 h3 then
      match pngMode ct with
      | some m => .ok ⟨be32 w0 w1 w2 w3, be32 h0 h1 h2 h3, m⟩
      | none => .error (.unidentifiedImageError "cannot identify image file")
    else .error (.unidentifiedImageError "cannot identify image file")
  | _ => .error (.unidentifiedImageError "cannot identify image file")

/-! ### rotate with expand

`image.rotate(angle, expand=True)` first reduces the angle modulo 360.
For 0, 90, 180 and 270 PIL takes a transposition shortcut with exact
output sizes.  Otherwise it maps the four corners of the image through
the rotation matrix about the image centre (counter-clockwise for
positive angles) and sets the output size to
`ceil(max) - floor(min)` of the corner coordinates, so the canvas
expands to contain the whole rotated image.  The model uses exact real
trigonometry where PIL uses double precision rounded to 15 decimals. -/

/-- The largest x-coordinate among the four rotated corners of a
`w`×`h` image rotated by `θ` radians about its centre. -/
noncomputable def rotMaxX (w h : Int) (θ : ℝ) : ℝ :=
  let cx : ℝ := (w : ℝ) / 2
  let cy : ℝ := (h : ℝ) / 2
  let a := Real.cos θ
  let b := Real.sin θ
  let c := -(a * cx + b * cy) + cx
  max (max (max c (a * w + c)) (a * w + b * h + c)) (b * h + c)

/-- The smallest x-coordinate among the four rotated corners. -/
noncomputable def rotMinX (w h : Int) (θ : ℝ) : ℝ :=
  let cx : ℝ := (w : ℝ) / 2
  let cy : ℝ := (h : ℝ) / 2
  let a := Real.cos θ
  let b := Real.sin θ
  let c := -(a * cx + b * cy) + cx
  min (min (min c (a * w + c)) (a * w + b * h + c)) (b * h + c)

/-- The largest y-coordinate among the four rotated corners. -/
noncomputable def rotMaxY (w h : Int) (θ : ℝ) : ℝ :=
  let cx : ℝ := (w : ℝ) / 2
  let cy : ℝ := (h : ℝ) / 2
  let d := -Real.sin θ
  let e := Real.cos θ
  let f := -(d * cx + e * cy) + cy
  max (max (max f (d * w + f)) (d * w + e * h + f)) (e * h + f)

/-- The smallest y-coordinate among the four rotated corners. -/
noncomputable def rotMinY (w h : Int) (θ : ℝ) : ℝ :=
  let cx : ℝ := (w : ℝ) / 2
  let cy : ℝ := (h : ℝ) / 2
  let d := -Real.sin θ
  let e := Real.cos θ
  let f := -(d * cx + e * cy) + cy
  min (min (min f (d * w + f)) (d * w + e * h + f)) (e * h + f)

/-- The angle in radians used by PIL after reduction modulo 360. -/
noncomputable def radiansOf (angle : Int) : ℝ :=
  ((angle.emod 360 : Int) : ℝ) * Real.pi / 180

/-- The output size of `rotate(angle, expand=True)` on a `w`×`h` image. -/
noncomputable def rotateExpandSize (w h angle : Int) : Int × Int :=
  let m := angle.emod 360
  if m = 0 ∨ m = 180 then (w, h)
  else if m = 90 ∨ m = 270 then (h, w)
  else
    (⌈rotMaxX w h (radiansOf angle)⌉ - ⌊rotMinX w h (radiansOf angle)⌋,
     ⌈rotMaxY w h (radiansOf angle)⌉ - ⌊rotMinY w h (radiansOf angle)⌋)

/-- `image.rotate(angle, expand=True)`: expanded canvas, mode kept. -/
noncomputable def pilRotate (img : PILImage) (angle : Int) : PILImage :=
  ⟨(rotateExpandSize img.width img.height angle).1,
   (rotateExpandSize img.width img.height angle).2, img.mode⟩

/-! ### process_image and the endpoint -/

/-- The Python runtime type name of a JSON value. -/
def pyTypeName : JVal → String
  | .null => "NoneType"
  | .bool _ => "bool"
  | .int _ => "int"
  | .str _ => "str"

/-- The value of `v` as a Python `int`, when `v` is an `int` (or a
`bool`, a subclass of `int` with `True = 1` and `False = 0`). -/
def pyAsInt : JVal → Option Int
  | .int n => some n
  | .bool b => some (if b then 1 else 0)
  | _ => none

/-- `str(e)` of the `TypeError` raised by `v <= 0` on a non-numeric `v`. -/
def pyLeErrMsg (v : JVal) : String :=
  sq ++ "<=" ++ sq ++ " not supported between instances of " ++
    sq ++ pyTypeName v ++ sq ++ " and " ++ sq ++ "int" ++ sq

/-- `str(e)` of the `TypeError` raised by `v % 360.0` on a non-numeric
`v`; for a string, `%` is string formatting, with its own message. -/
def pyModErrMsg : JVal → String
  | .str _ => "not all arguments converted during string formatting"
  | v => "unsupported operand type(s) for %: " ++ sq ++ pyTypeName v ++
      sq ++ " and " ++ sq ++ "float" ++ sq

/-- The `ValueError` message of the resize dimension check. -/
def resizeDimErr : String :=
  "Width and height must be positive integers for resizing."

/-- `process_image` (main.py lines 100-110): dispatch on
`transformation_type`; the `resize` branch evaluates
`width <= 0 or height <= 0` with Python short-circuiting, so a
non-numeric `width` raises `TypeError` before `height` is examined,
and a non-positive `width` raises `ValueError` without examining
`height` at all. -/
noncomputable def process_image (image : PILImage)
    (transformation_type rotation_angle width height : JVal) :
    Except PyExc PILImage :=
  if transformation_type = .str "grayscale" then
    .ok image.convertL
  else if transformation_type = .str "rotate" then
    match pyAsInt rotation_angle with
    | some a => .ok (pilRotate image a)
    | none => .error (.typeError (pyModErrMsg rotation_angle))
  else if transformation_type = .str "resize" then
    match pyAsInt width with
    | none => .error (.typeError (pyLeErrMsg width))
    | some w =>
      if w ≤ 0 then .error (.valueError resizeDimErr)
      else
        match pyAsInt height with
        | none => .error (.typeError (pyLeErrMsg height))
        | some h =>
          if h ≤ 0 then .error (.valueError resizeDimErr)
          else .ok ⟨w, h, image.mode⟩
  else .error (.valueError "Invalid transformation type")

/-- A serialized image as the handler returns it: the format the bytes
were written in and the image they encode.  The code base64-encodes
these bytes; byte-level JPEG coding is external and abstracted away. -/
structure EncodedImage where
  format : String
  image : PILImage
deriving DecidableEq, Repr

/-- The success body of POST /transform. -/
structure TransformResponse where
  transformed_image : EncodedImage
deriving DecidableEq, Repr

/-- `transformed_image.save(buffered, format="JPEG")`: JPEG cannot
encode an alpha channel or a palette, so saving such modes raises
`OSError`; single-channel and truecolour images are written. -/
def jpegSave (img : PILImage) : Except PyExc EncodedImage :=
  if img.mode = "L" ∨ img.mode = "RGB" ∨ img.mode = "CMYK" then
    .ok ⟨"JPEG", img⟩
  else .error (.osError ("cannot write mode " ++ img.mode ++ " as JPEG"))

/-- The 400 detail built at main.py line 146. -/
def invalidImageFileMsg : String :=
  "Invalid image file. Ensure the image is a valid Base64 encoded string representing an image."

/-- The 400 detail built at main.py line 172. -/
def invalidImageProvidedMsg : String :=
  "Invalid image provided. Ensure the image is a valid Base64 encoded string representing an image."

/-- The body of the `try` block of `transform_image` (main.py lines
132-169).  A failure of `Image.open` is caught by the inner
`except Exception` (line 145) which raises an `HTTPException` with
status 400 — an exception like any other to the surrounding `try`. -/
noncomputable def transform_body (request_data : Data) :
    Except PyExc TransformResponse :=
  match b64decodeJ (pyGet request_data "image") with
  | .error e => .error e
  | .ok image_data =>
    match imageOpen image_data with
    | .error _ => .error (.httpException 400 (.message invalidImageFileMsg))
    | .ok image =>
      match process_image image (pyGet request_data "transformation_type")
          (pyGetD request_data "rotation_angle" (.int 0))
          (pyGetD request_data "width" (.int 0))
          (pyGetD request_data "height" (.int 0)) with
      | .error e => .error e
      | .ok transformed =>
        match jpegSave transformed with
        | .error e => .error e
        | .ok enc => .ok ⟨enc⟩

/-- `transform_image` (main.py lines 130-182): run the body and map any
exception through the `except` chain, in order:
`UnidentifiedImageError`, then `ValueError` (which also catches
`binascii.Error`), then the bare `except Exception` — which catches the
`HTTPException` raised for an unreadable image as well. -/
noncomputable def transform_image (request_data : Data) :
    Except HTTPError TransformResponse :=
  match transform_body request_data with
  | .ok r => .ok r
  | .error e =>
    if e.isUnidentifiedImageError then
      .error ⟨400, .message invalidImageProvidedMsg⟩
    else if e.isValueError then
      .error ⟨400, .message ("Invalid transformation type or parameter: " ++ e.pyStr ++ ".")⟩
    else
      .error ⟨500, .message ("Internal server error: " ++ e.pyStr)⟩

/-- The `correct_format` example of the missing-required-fields error. -/
def full_correct_format : List (String × String) :=
  [("image", "<Base64-encoded-image>"),
   ("transformation_type", "<grayscale|rotate|resize>"),
   ("rotation_angle", "<integer>"),
   ("width", "<positive integer>"),
   ("height", "<positive integer>")]

/-- The `correct_format` example of the resize-specific error. -/
def resize_correct_format : List (String × String) :=
  [("image", "<Base64-encoded-image>"),
   ("transformation_type", "resize"),
   ("width", "<positive integer>"),
   ("height", "<positive integer>")]

/-- The `correct_format` example of the rotate-specific error. -/
def rotate_correct_format : List (String × String) :=
  [("image", "<Base64-encoded-image>"),
   ("transformation_type", "rotate"),
   ("rotation_angle", "<integer>")]

/-- The `required_fields` list of `validate_input`. -/
def required_fields : List String := ["image", "transformation_type"]

/-- Python `str` of a list of strings, as interpolated into the
missing-fields message. -/
def pyStrListRepr (l : List String) : String :=
  "[" ++ String.intercalate ", " (l.map (fun s => sq ++ s ++ sq)) ++ "]"

/-- `validate_input` (main.py lines 50-98): presence of the two
required keys first, then the conditional resize and rotate checks
(`data.get(k) is None` is true both for an absent key and for an
explicit null). -/
def validate_input (data : Data) : Except HTTPError Data :=
  let missing_fields := required_fields.filter (fun f => ! data.containsKey f)
  if missing_fields ≠ [] then
    .error ⟨422, .envelope ("Missing required fields: " ++ pyStrListRepr missing_fields)
      full_correct_format⟩
  else if pyGet data "transformation_type" = .str "resize" ∧
      (pyGet data "width" = .null ∨ pyGet data "height" = .null) then
    .error ⟨422, .envelope "Width and height must be provided for resize transformation."
      resize_correct_format⟩
  else if pyGet data "transformation_type" = .str "rotate" ∧
      pyGet data "rotation_angle" = .null then
    .error ⟨422, .envelope "Rotation angle must be provided for rotate transformation."
      rotate_correct_format⟩
  else .ok data

/-- POST /transform: FastAPI resolves `Depends(validate_input)` before
the handler body runs, so a validation rejection is the response and no
decoding work happens. -/
noncomputable def postTransform (data : Data) : Except HTTPError TransformResponse :=
  match validate_input data with
  | .error e => .error e
  | .ok validated => transform_image validated

/-- The HTTP status of a handler outcome (success responds 200). -/
def responseStatus : Except HTTPError TransformResponse → Nat
  | .ok _ => 200
  | .error e => e.status_code

/-- Base64 of a 10×10 truecolour PNG header (signature and IHDR), used
as a concrete well-formed image input. -/
def png10 : String := "iVBORw0KGgoAAAANSUhEUgAAAAoAAAAKCAI="

/-! ### Helper lemmas -/

theorem validate_error_post {data : Data} {e : HTTPError}
    (h : validate_input data = .error e) : postTransform data = .error e := by
  simp [postTransform, h]

theorem validate_ok_post {data : Data}
    (h : validate_input data = .ok data) :
    postTransform data = transform_image data := by
  simp [postTransform, h]

theorem validate_input_ok_eq {data d' : Data}
    (h : validate_input data = .ok d') : d' = data := by
  simp only [validate_input] at h
  repeat split at h
  all_goals (try split at h)
  all_goals (try split at h)
  all_goals simp_all

theorem missing_fields_nil {data : Data}
    (hi : data.containsKey "image" = true)
    (ht : data.containsKey "transformation_type" = true) :
    required_fields.filter (fun f => ! data.containsKey f) = [] := by
  simp [required_fields, hi, ht]

theorem pyGetD_of_pyGet {d : Data} {k : String} {v dflt : JVal}
    (hv : pyGet d k = v) (hnull : v ≠ JVal.null) :
    pyGetD d k dflt = v := by
  unfold pyGet at hv
  unfold pyGetD
  cases h : List.lookup k d with
  | none => rw [h] at hv; simp at hv; exact absurd hv.symm hnull
  | some w => rw [h] at hv; simpa using hv

/-- C3: for every input mapping in which the key `image` or the key
`transformation_type` (or both) is absent, the validator rejects with
HTTP 422 whose error message lists exactly the missing fields among
those two, together with a correct_format example covering all five
possible fields, before any conditional or decoding work (the response
is fully determined by key presence alone). -/
theorem c3_missing_required_fields (data : Data)
    (h : data.containsKey "image" = false ∨
      data.containsKey "transformation_type" = false) :
    postTransform data = .error ⟨422, .envelope
      ("Missing required fields: " ++
        pyStrListRepr (required_fields.filter (fun f => ! data.containsKey f)))
      full_correct_format⟩ ∧
    (∀ f, f ∈ required_fields.filter (fun f => ! data.containsKey f) ↔
      (f ∈ required_fields ∧ data.containsKey f = false)) ∧
    full_correct_format.map Prod.fst =
      ["image", "transformation_type", "rotation_angle", "width", "height"] := by
  have hne : required_fields.filter (fun f => ! data.containsKey f) ≠ [] := by
    rcases h with h | h
    · intro he
      have hm : "image" ∈ required_fields.filter (fun f => ! data.containsKey f) := by
        simp [required_fields, h]
      rw [he] at hm
      simp at hm
    · intro he
      have hm : "transformation_type" ∈
          required_fields.filter (fun f => ! data.containsKey f) := by
        simp [required_fields, h]
      rw [he] at hm
      simp at hm
  refine ⟨?_, ?_, by rfl⟩
  · exact validate_error_post (by simp [validate_input, hne])
  · intro f
    simp [List.mem_filter]

/-- C3 witness: a request carrying only `width` is missing both
required fields and is rejected with the message listing both. -/
theorem c3_missing_required_fields_witness :
    postTransform [("width", JVal.int 3)] = .error ⟨422, .envelope
      ("Missing required fields: " ++
        pyStrListRepr ["image", "transformation_type"])
      full_correct_format⟩ :=
  (c3_missing_required_fields [("width", JVal.int 3)] (Or.inl rfl)).1

/-- C4: for every input mapping containing `image` and
`transformation_type`: a resize request with `width` or `height` absent
or null is rejected with HTTP 422 and the resize-specific
correct_format (image, transformation_type, width, height only); a
rotate request with `rotation_angle` absent or null is rejected with
HTTP 422 and the rotate-specific correct_format (image,
transformation_type, rotation_angle only). -/
theorem c4_conditional_checks (data : Data)
    (hi : data.containsKey "image" = true)
    (ht : data.containsKey "transformation_type" = true) :
    ((pyGet data "transformation_type" = .str "resize" →
      (pyGet data "width" = .null ∨ pyGet data "height" = .null) →
      postTransform data = .error ⟨422, .envelope
        "Width and height must be provided for resize transformation."
        resize_correct_format⟩) ∧
     resize_correct_format.map Prod.fst =
       ["image", "transformation_type", "width", "height"]) ∧
    ((pyGet data "transformation_type" = .str "rotate" →
      pyGet data "rotation_angle" = .null →
      postTransform data = .error ⟨422, .envelope
        "Rotation angle must be provided for rotate transformation."
        rotate_correct_format⟩) ∧
     rotate_correct_format.map Prod.fst =
       ["image", "transformation_type", "rotation_angle"]) := by
  have hnil := missing_fields_nil hi ht
  refine ⟨⟨fun hty hwh => ?_, by rfl⟩, fun hty hra => ?_, by rfl⟩
  · refine validate_error_post ?_
    rcases hwh with hw | hw <;> simp [validate_input, hnil, hty, hw]
  · refine validate_error_post ?_
    simp [validate_input, hnil, hty, hra]

/-- C4 witness: concrete resize and rotate requests with the
conditional parameter absent are rejected with the specific formats. -/
theorem c4_conditional_checks_witness :
    postTransform [("image", JVal.str "x"), ("transformation_type", JVal.str "resize")] =
      .error ⟨422, .envelope
        "Width and height must be provided for resize transformation."
        resize_correct_format⟩ ∧
    postTransform [("image", JVal.str "x"), ("transformation_type", JVal.str "rotate")] =
      .error ⟨422, .envelope
        "Rotation angle must be provided for rotate transformation."
        rotate_correct_format⟩ :=
  ⟨((c4_conditional_checks
      [("image", JVal.str "x"), ("transformation_type", JVal.str "resize")]
      rfl rfl).1).1 rfl (Or.inl rfl),
   ((c4_conditional_checks
      [("image", JVal.str "x"), ("transformation_type", JVal.str "rotate")]
      rfl rfl).2).1 rfl rfl⟩

/-- Every error of the base64 decoding loop is a `binascii.Error`,
hence caught by `except ValueError`. -/
theorem b64Loop_error_isValueError (cs : List Char) (acc buf : List Nat) (n : Nat) :
    ∀ (e : PyExc), b64Loop cs acc buf n = .error e → e.isValueError = true := by
  induction cs, acc, buf, n using b64Loop.induct
  all_goals intro e h
  all_goals simp_all [b64Loop, PyExc.isValueError, oneMoreErr, incorrectPadding]
  all_goals (subst h; rfl)

/-- Every failure of `base64.b64decode` on a string is a `ValueError`
(a `binascii.Error` for malformed base64, a plain `ValueError` for
non-ASCII input). -/
theorem b64decode_error_isValueError {s : String} {e : PyExc}
    (h : b64decode s = .error e) : e.isValueError = true := by
  unfold b64decode at h
  split at h
  · exact b64Loop_error_isValueError _ _ _ _ _ h
  · injection h with h
    rw [← h]
    rfl

/-- C1 amended: for every request that passes validation but whose
`image` value is a string on which base64 decoding fails, POST
/transform responds with HTTP 400 with the message
`Invalid transformation type or parameter: <decode error>.` — not with
HTTP 500, because `binascii.Error` is a subclass of `ValueError` and is
caught by the `except ValueError` handler, not by the generic handler. -/
theorem c1_malformed_base64_is_400 (data : Data) (s : String) (e : PyExc)
    (hval : validate_input data = .ok data)
    (himg : pyGet data "image" = .str s)
    (hdec : b64decode s = .error e) :
    postTransform data = .error ⟨400, .message
      ("Invalid transformation type or parameter: " ++ e.pyStr ++ ".")⟩ ∧
    e.isValueError = true := by
  have hve : e.isValueError = true := b64decode_error_isValueError hdec
  have hvu : e.isUnidentifiedImageError = false := by
    cases e <;> simp_all [PyExc.isValueError, PyExc.isUnidentifiedImageError]
  refine ⟨?_, hve⟩
  rw [validate_ok_post hval]
  simp [transform_image, transform_body, b64decodeJ, himg, hdec, hvu, hve]

/-- C1 witness: the malformed base64 string `abc` is rejected with the
400 parameter error embedding `Incorrect padding`. -/
theorem c1_malformed_base64_is_400_witness :
    postTransform [("image", JVal.str "abc"), ("transformation_type", JVal.str "grayscale")] =
      .error ⟨400, .message
        ("Invalid transformation type or parameter: " ++
          (PyExc.binasciiError "Incorrect padding").pyStr ++ ".")⟩ ∧
    (PyExc.binasciiError "Incorrect padding").isValueError = true :=
  c1_malformed_base64_is_400
    [("image", JVal.str "abc"), ("transformation_type", JVal.str "grayscale")]
    "abc" (PyExc.binasciiError "Incorrect padding") rfl rfl rfl

/-- C1 counterexample: the claim as stated says a malformed base64
`image` yields HTTP 500; on the concrete request with `image = "abc"`
the code responds 400, with the decode error embedded in the
`Invalid transformation type or parameter` message. -/
theorem c1_malformed_base64_counterexample :
    responseStatus (postTransform
      [("image", JVal.str "abc"), ("transformation_type", JVal.str "grayscale")]) = 400 ∧
    responseStatus (postTransform
      [("image", JVal.str "abc"), ("transformation_type", JVal.str "grayscale")]) ≠ 500 ∧
    postTransform [("image", JVal.str "abc"), ("transformation_type", JVal.str "grayscale")] =
      .error ⟨400, .message "Invalid transformation type or parameter: Incorrect padding."⟩ := by
  refine ⟨rfl, ?_, rfl⟩
  intro h
  rw [show responseStatus (postTransform
    [("image", JVal.str "abc"), ("transformation_type", JVal.str "grayscale")]) = 400
    from rfl] at h
  exact absurd h (by norm_num)

/-- C2: decoded bytes that are not a parseable image make `Image.open`
fail; the inner handler raises `HTTPException(400, "Invalid image
file...")`, but that exception is itself caught by the outer bare
`except Exception`, so the client actually receives HTTP 500 with an
`Internal server error` message wrapping the intended 400 payload —
the code contradicts the intended (and specified) 400 response. -/
theorem c2_unparseable_bytes_actually_500 :
    postTransform [("image", JVal.str "aGVsbG8="), ("transformation_type", JVal.str "grayscale")] =
      .error ⟨500, .message ("Internal server error: " ++
        (PyExc.httpException 400 (.message invalidImageFileMsg)).pyStr)⟩ ∧
    responseStatus (postTransform
      [("image", JVal.str "aGVsbG8="), ("transformation_type", JVal.str "grayscale")]) = 500 ∧
    responseStatus (postTransform
      [("image", JVal.str "aGVsbG8="), ("transformation_type", JVal.str "grayscale")]) ≠ 400 := by
  refine ⟨rfl, rfl, ?_⟩
  intro h
  rw [show responseStatus (postTransform
    [("image", JVal.str "aGVsbG8="), ("transformation_type", JVal.str "grayscale")]) = 500
    from rfl] at h
  exact absurd h (by norm_num)

/-- The bytes that `png10` decodes to: PNG signature and IHDR header of
a 10×10 truecolour (RGB) image. -/
def png10Bytes : List Nat :=
  [137, 80, 78, 71, 13, 10, 26, 10, 0, 0, 0, 13, 73, 72, 68, 82,
   0, 0, 0, 10, 0, 0, 0, 10, 8, 2]

/-- C5: the validator never rejects a request for having a
`transformation_type` outside the three known values: with both
required keys present and any other `transformation_type`, validation
succeeds, and (when the image itself decodes and parses) the request
fails in the transform engine with HTTP 400 and the message
`Invalid transformation type or parameter: Invalid transformation
type.` — not with 422. -/
theorem c5_unknown_type_passes_validation (data : Data) (bs : List Nat) (img : PILImage)
    (hi : data.containsKey "image" = true)
    (ht : data.containsKey "transformation_type" = true)
    (hty : pyGet data "transformation_type" ∉
      ([.str "grayscale", .str "rotate", .str "resize"] : List JVal))
    (hdec : b64decodeJ (pyGet data "image") = .ok bs)
    (hopen : imageOpen bs = .ok img) :
    validate_input data = .ok data ∧
    postTransform data = .error ⟨400, .message
      "Invalid transformation type or parameter: Invalid transformation type."⟩ := by
  have h1 : pyGet data "transformation_type" ≠ .str "grayscale" := by
    intro e; exact hty (by simp [e])
  have h2 : pyGet data "transformation_type" ≠ .str "rotate" := by
    intro e; exact hty (by simp [e])
  have h3 : pyGet data "transformation_type" ≠ .str "resize" := by
    intro e; exact hty (by simp [e])
  have hval : validate_input data = .ok data := by
    simp [validate_input, missing_fields_nil hi ht, h2, h3]
  refine ⟨hval, ?_⟩
  rw [validate_ok_post hval]
  simp [transform_image, transform_body, hdec, hopen, process_image, h1, h2, h3,
    PyExc.isUnidentifiedImageError, PyExc.isValueError, PyExc.pyStr]

/-- C5 witness: `transformation_type = "sepia"` with a well-formed
image passes validation and fails with the 400 parameter error. -/
theorem c5_unknown_type_passes_validation_witness :
    validate_input [("image", JVal.str png10), ("transformation_type", JVal.str "sepia")] =
      .ok [("image", JVal.str png10), ("transformation_type", JVal.str "sepia")] ∧
    postTransform [("image", JVal.str png10), ("transformation_type", JVal.str "sepia")] =
      .error ⟨400, .message
        "Invalid transformation type or parameter: Invalid transformation type."⟩ :=
  c5_unknown_type_passes_validation
    [("image", JVal.str png10), ("transformation_type", JVal.str "sepia")]
    png10Bytes ⟨10, 10, "RGB"⟩ rfl rfl (by decide) rfl rfl

/-- C6: a resize request that passes validation and image parsing but
carries a non-positive integer width or height fails with HTTP 400 and
the message beginning `Invalid transformation type or parameter:` — a
parameter error raised in the transform engine, not a validation
error.  (The source appends a period to a message already ending in
one, hence the doubled full stop.) -/
theorem c6_nonpositive_resize_is_param_error (data : Data) (w h : Int)
    (bs : List Nat) (img : PILImage)
    (hi : data.containsKey "image" = true)
    (ht : data.containsKey "transformation_type" = true)
    (hty : pyGet data "transformation_type" = .str "resize")
    (hw : pyGet data "width" = .int w)
    (hh : pyGet data "height" = .int h)
    (hnp : w ≤ 0 ∨ h ≤ 0)
    (hdec : b64decodeJ (pyGet data "image") = .ok bs)
    (hopen : imageOpen bs = .ok img) :
    postTransform data = .error ⟨400, .message
      ("Invalid transformation type or parameter: " ++ resizeDimErr ++ ".")⟩ := by
  have hval : validate_input data = .ok data := by
    simp [validate_input, missing_fields_nil hi ht, hty, hw, hh]
  rw [validate_ok_post hval]
  have hwD : pyGetD data "width" (.int 0) = .int w := pyGetD_of_pyGet hw (by simp)
  have hhD : pyGetD data "height" (.int 0) = .int h := pyGetD_of_pyGet hh (by simp)
  by_cases hwle : w ≤ 0
  · simp [transform_image, transform_body, hdec, hopen, process_image, hty, hwD, hhD,
      pyAsInt, hwle, PyExc.isUnidentifiedImageError, PyExc.isValueError, PyExc.pyStr]
  · have hhle : h ≤ 0 := by tauto
    simp [transform_image, transform_body, hdec, hopen, process_image, hty, hwD, hhD,
      pyAsInt, hwle, hhle, PyExc.isUnidentifiedImageError, PyExc.isValueError, PyExc.pyStr]

/-- C6 witness: `width = 0, height = 5` on a well-formed image yields
the 400 parameter error, as the spec's example requires. -/
theorem c6_nonpositive_resize_is_param_error_witness :
    postTransform [("image", JVal.str png10), ("transformation_type", JVal.str "resize"),
        ("width", JVal.int 0), ("height", JVal.int 5)] =
      .error ⟨400, .message
        ("Invalid transformation type or parameter: " ++ resizeDimErr ++ ".")⟩ :=
  c6_nonpositive_resize_is_param_error
    [("image", JVal.str png10), ("transformation_type", JVal.str "resize"),
     ("width", JVal.int 0), ("height", JVal.int 5)]
    0 5 png10Bytes ⟨10, 10, "RGB"⟩ rfl rfl rfl rfl rfl (Or.inl (by norm_num)) rfl rfl

/-- Inversion of a successful POST /transform: validation passed, the
base64 decoded, the image parsed, the transformation succeeded, and
the response holds the JPEG serialization of the transformed image. -/
theorem postTransform_ok_inv (data : Data) (r : TransformResponse)
    (hr : postTransform data = .ok r) :
    validate_input data = .ok data ∧
    ∃ bs img t,
      b64decodeJ (pyGet data "image") = .ok bs ∧
      imageOpen bs = .ok img ∧
      process_image img (pyGet data "transformation_type")
        (pyGetD data "rotation_angle" (.int 0))
        (pyGetD data "width" (.int 0))
        (pyGetD data "height" (.int 0)) = .ok t ∧
      r.transformed_image = ⟨"JPEG", t⟩ := by
  unfold postTransform at hr
  cases hv : validate_input data with
  | error e => rw [hv] at hr; simp at hr
  | ok d' =>
    have hd : d' = data := validate_input_ok_eq hv
    subst hd
    simp only [hv] at hr
    unfold transform_image at hr
    cases hb : transform_body d' with
    | error e =>
      simp only [hb] at hr
      split_ifs at hr
    | ok r' =>
      simp only [hb] at hr
      have hrr : r' = r := by simpa using hr
      subst hrr
      unfold transform_body at hb
      cases hdec : b64decodeJ (pyGet d' "image") with
      | error e => simp [hdec] at hb
      | ok bs =>
        simp only [hdec] at hb
        cases hopen : imageOpen bs with
        | error e => simp [hopen] at hb
        | ok img =>
          simp only [hopen] at hb
          cases hproc : process_image img (pyGet d' "transformation_type")
              (pyGetD d' "rotation_angle" (.int 0))
              (pyGetD d' "width" (.int 0))
              (pyGetD d' "height" (.int 0)) with
          | error e => simp [hproc] at hb
          | ok t =>
            simp only [hproc] at hb
            cases hsave : jpegSave t with
            | error e => simp [hsave] at hb
            | ok enc =>
              simp only [hsave, Except.ok.injEq] at hb
              have henc : enc = ⟨"JPEG", t⟩ := by
                unfold jpegSave at hsave
                split_ifs at hsave
                simp_all
              refine ⟨rfl, bs, img, t, rfl, hopen, hproc, ?_⟩
              rw [← hb]
              exact henc

/-- C7: for every successful resize request with strictly positive
width and height, the returned serialized image has exactly
width×height pixels — no aspect-ratio preservation. -/
theorem c7_resize_exact_dims (data : Data) (r : TransformResponse) (w h : Int)
    (hr : postTransform data = .ok r)
    (hty : pyGet data "transformation_type" = .str "resize")
    (hw : pyGet data "width" = .int w)
    (hh : pyGet data "height" = .int h)
    (hwpos : 0 < w) (hhpos : 0 < h) :
    r.transformed_image.image.width = w ∧ r.transformed_image.image.height = h := by
  obtain ⟨hval, bs, img, t, hdec, hopen, hproc, henc⟩ := postTransform_ok_inv data r hr
  have hwD : pyGetD data "width" (.int 0) = .int w := pyGetD_of_pyGet hw (by simp)
  have hhD : pyGetD data "height" (.int 0) = .int h := pyGetD_of_pyGet hh (by simp)
  rw [hty, hwD, hhD] at hproc
  unfold process_image at hproc
  simp [pyAsInt] at hproc
  rw [if_neg (by omega), if_neg (by omega)] at hproc
  simp only [Except.ok.injEq] at hproc
  rw [henc, ← hproc]
  exact ⟨rfl, rfl⟩

/-- C7 witness: a 10×10 input resized with `width=5, height=20` yields
exactly 5×20 — the aspect ratio is not preserved. -/
theorem c7_resize_exact_dims_witness :
    (⟨⟨"JPEG", ⟨5, 20, "RGB"⟩⟩⟩ : TransformResponse).transformed_image.image.width = 5 ∧
    (⟨⟨"JPEG", ⟨5, 20, "RGB"⟩⟩⟩ : TransformResponse).transformed_image.image.height = 20 :=
  c7_resize_exact_dims
    [("image", JVal.str png10), ("transformation_type", JVal.str "resize"),
     ("width", JVal.int 5), ("height", JVal.int 20)]
    ⟨⟨"JPEG", ⟨5, 20, "RGB"⟩⟩⟩ 5 20 rfl rfl rfl rfl
    (by norm_num) (by norm_num)

/-- C9: every successful POST /transform response carries bytes
serialized in JPEG format, regardless of the input image's format —
the output is always normalized to JPEG. -/
theorem c9_output_always_jpeg (data : Data) (r : TransformResponse)
    (hr : postTransform data = .ok r) :
    r.transformed_image.format = "JPEG" := by
  obtain ⟨_, _, _, t, _, _, _, henc⟩ := postTransform_ok_inv data r hr
  rw [henc]

/-- C9 witness: the grayscale transform of a PNG input succeeds and the
response's serialization format is JPEG. -/
theorem c9_output_always_jpeg_witness :
    (⟨⟨"JPEG", ⟨10, 10, "L"⟩⟩⟩ : TransformResponse).transformed_image.format = "JPEG" :=
  c9_output_always_jpeg
    [("image", JVal.str png10), ("transformation_type", JVal.str "grayscale")]
    ⟨⟨"JPEG", ⟨10, 10, "L"⟩⟩⟩ rfl

/-- C10 amended: the validator checks only presence and non-nullness,
never types.  A conditionally required parameter that is present but a
string passes validation and raises a `TypeError` in the transform
engine, caught by the generic handler as HTTP 500
`Internal server error: <detail>` — except that for resize, Python's
short-circuit `width <= 0 or height <= 0` examines `width` first, so a
non-positive integer `width` raises the `ValueError` (HTTP 400) before
a string `height` is ever compared.  The three 500-producing cases:
string `width`; positive integer `width` with string `height`; string
`rotation_angle`. -/
theorem c10_string_params_internal_error (data : Data) (s : String) (w : Int)
    (bs : List Nat) (img : PILImage)
    (hi : data.containsKey "image" = true)
    (ht : data.containsKey "transformation_type" = true)
    (hdec : b64decodeJ (pyGet data "image") = .ok bs)
    (hopen : imageOpen bs = .ok img) :
    (pyGet data "transformation_type" = .str "resize" →
     pyGet data "width" = .str s →
     pyGet data "height" ≠ .null →
     postTransform data = .error ⟨500, .message
       ("Internal server error: " ++ pyLeErrMsg (.str s))⟩) ∧
    (pyGet data "transformation_type" = .str "resize" →
     pyGet data "width" = .int w →
     0 < w →
     pyGet data "height" = .str s →
     postTransform data = .error ⟨500, .message
       ("Internal server error: " ++ pyLeErrMsg (.str s))⟩) ∧
    (pyGet data "transformation_type" = .str "rotate" →
     pyGet data "rotation_angle" = .str s →
     postTransform data = .error ⟨500, .message
       ("Internal server error: " ++ pyModErrMsg (.str s))⟩) := by
  refine ⟨fun hty hw hh => ?_, fun hty hw hwpos hh => ?_, fun hty ha => ?_⟩
  · have hval : validate_input data = .ok data := by
      simp [validate_input, missing_fields_nil hi ht, hty, hw, hh]
    rw [validate_ok_post hval]
    have hwD : pyGetD data "width" (.int 0) = .str s := pyGetD_of_pyGet hw (by simp)
    simp [transform_image, transform_body, hdec, hopen, process_image, hty, hwD,
      pyAsInt, PyExc.isUnidentifiedImageError, PyExc.isValueError, PyExc.pyStr]
  · have hval : validate_input data = .ok data := by
      simp [validate_input, missing_fields_nil hi ht, hty, hw, hh]
    rw [validate_ok_post hval]
    have hwD : pyGetD data "width" (.int 0) = .int w := pyGetD_of_pyGet hw (by simp)
    have hhD : pyGetD data "height" (.int 0) = .str s := pyGetD_of_pyGet hh (by simp)
    have hwle : ¬ w ≤ 0 := by omega
    simp [transform_image, transform_body, hdec, hopen, process_image, hty, hwD, hhD,
      pyAsInt, hwle, PyExc.isUnidentifiedImageError, PyExc.isValueError, PyExc.pyStr]
  · have hval : validate_input data = .ok data := by
      simp [validate_input, missing_fields_nil hi ht, hty, ha]
    rw [validate_ok_post hval]
    have haD : pyGetD data "rotation_angle" (.int 0) = .str s := pyGetD_of_pyGet ha (by simp)
    simp [transform_image, transform_body, hdec, hopen, process_image, hty, haD,
      pyAsInt, PyExc.isUnidentifiedImageError, PyExc.isValueError, PyExc.pyStr]

/-- C10 witness: a resize request with `width = "ten"` and a rotate
request with `rotation_angle = "x"` both pass validation and surface
as HTTP 500 internal errors wrapping the `TypeError` text. -/
theorem c10_string_params_internal_error_witness :
    postTransform [("image", JVal.str png10), ("transformation_type", JVal.str "resize"),
        ("width", JVal.str "ten"), ("height", JVal.int 5)] =
      .error ⟨500, .message ("Internal server error: " ++ pyLeErrMsg (.str "ten"))⟩ ∧
    postTransform [("image", JVal.str png10), ("transformation_type", JVal.str "rotate"),
        ("rotation_angle", JVal.str "x")] =
      .error ⟨500, .message ("Internal server error: " ++ pyModErrMsg (.str "x"))⟩ :=
  ⟨(c10_string_params_internal_error
      [("image", JVal.str png10), ("transformation_type", JVal.str "resize"),
       ("width", JVal.str "ten"), ("height", JVal.int 5)]
      "ten" 1 png10Bytes ⟨10, 10, "RGB"⟩ rfl rfl rfl rfl).1 rfl rfl (by decide),
   (c10_string_params_internal_error
      [("image", JVal.str png10), ("transformation_type", JVal.str "rotate"),
       ("rotation_angle", JVal.str "x")]
      "x" 1 png10Bytes ⟨10, 10, "RGB"⟩ rfl rfl rfl rfl).2.2 rfl rfl⟩

/-- C10 counterexample: the claim as stated promises HTTP 500 whenever
a conditionally required parameter is present but not an integer; with
`width = 0` (a non-positive integer) and `height = "x"` (a string) the
short-circuited width check raises `ValueError` first and the response
is HTTP 400, not 500. -/
theorem c10_short_circuit_counterexample :
    responseStatus (postTransform
      [("image", JVal.str png10), ("transformation_type", JVal.str "resize"),
       ("width", JVal.int 0), ("height", JVal.str "x")]) = 400 ∧
    responseStatus (postTransform
      [("image", JVal.str png10), ("transformation_type", JVal.str "resize"),
       ("width", JVal.int 0), ("height", JVal.str "x")]) ≠ 500 ∧
    postTransform [("image", JVal.str png10), ("transformation_type", JVal.str "resize"),
        ("width", JVal.int 0), ("height", JVal.str "x")] =
      .error ⟨400, .message
        ("Invalid transformation type or parameter: " ++ resizeDimErr ++ ".")⟩ := by
  refine ⟨rfl, ?_, rfl⟩
  intro h
  rw [show responseStatus (postTransform
    [("image", JVal.str png10), ("transformation_type", JVal.str "resize"),
     ("width", JVal.int 0), ("height", JVal.str "x")]) = 400 from rfl] at h
  exact absurd h (by norm_num)

/-- The spread of the four values `c, x+c, x+y+c, y+c` is `|x| + |y|`. -/
theorem max4_sub_min4 (x y c : ℝ) :
    max (max (max c (x + c)) (x + y + c)) (y + c) -
      min (min (min c (x + c)) (x + y + c)) (y + c) = |x| + |y| := by
  rcases le_or_lt 0 x with hx | hx <;> rcases le_or_lt 0 y with hy | hy
  · rw [max_eq_right (by linarith : c ≤ x + c),
      max_eq_right (by linarith : x + c ≤ x + y + c),
      max_eq_left (by linarith : y + c ≤ x + y + c),
      min_eq_left (by linarith : c ≤ x + c),
      min_eq_left (by linarith : c ≤ x + y + c),
      min_eq_left (by linarith : c ≤ y + c),
      abs_of_nonneg hx, abs_of_nonneg hy]
    ring
  · rw [max_eq_right (by linarith : c ≤ x + c),
      max_eq_left (by linarith : x + y + c ≤ x + c),
      max_eq_left (by linarith : y + c ≤ x + c),
      min_eq_left (by linarith : c ≤ x + c),
      abs_of_nonneg hx, abs_of_neg hy]
    rcases le_or_lt 0 (x + y) with hxy | hxy
    · rw [min_eq_left (by linarith : c ≤ x + y + c),
        min_eq_right (by linarith : y + c ≤ c)]
      ring
    · rw [min_eq_right (by linarith : x + y + c ≤ c),
        min_eq_right (by linarith : y + c ≤ x + y + c)]
      ring
  · rw [min_eq_right (by linarith : x + c ≤ c),
      min_eq_left (by linarith : x + c ≤ x + y + c),
      min_eq_left (by linarith : x + c ≤ y + c),
      max_eq_left (by linarith : x + c ≤ c),
      abs_of_neg hx, abs_of_nonneg hy]
    rcases le_or_lt 0 (x + y) with hxy | hxy
    · rw [max_eq_right (by linarith : c ≤ x + y + c),
        max_eq_right (by linarith : x + y + c ≤ y + c)]
      ring
    · rw [max_eq_left (by linarith : x + y + c ≤ c),
        max_eq_right (by linarith : c ≤ y + c)]
      ring
  · rw [max_eq_left (by linarith : x + c ≤ c),
      max_eq_left (by linarith : x + y + c ≤ c),
      max_eq_left (by linarith : y + c ≤ c),
      min_eq_right (by linarith : x + c ≤ c),
      min_eq_right (by linarith : x + y + c ≤ x + c),
      min_eq_left (by linarith : x + y + c ≤ y + c),
      abs_of_neg hx, abs_of_neg hy]
    ring

/-- The horizontal spread of the rotated corners of a `w`×`h` image is
`|cos θ|·w + |sin θ|·h`. -/
theorem rotSpreadX (w h : Int) (θ : ℝ) (hw : (0 : Int) ≤ w) (hh : (0 : Int) ≤ h) :
    rotMaxX w h θ - rotMinX w h θ = |Real.cos θ| * w + |Real.sin θ| * h := by
  have hw' : (0 : ℝ) ≤ (w : ℝ) := by exact_mod_cast hw
  have hh' : (0 : ℝ) ≤ (h : ℝ) := by exact_mod_cast hh
  simp only [rotMaxX, rotMinX]
  rw [max4_sub_min4 (Real.cos θ * w) (Real.sin θ * h)]
  rw [abs_mul, abs_mul, abs_of_nonneg hw', abs_of_nonneg hh']

/-- The vertical spread of the rotated corners of a `w`×`h` image is
`|sin θ|·w + |cos θ|·h`. -/
theorem rotSpreadY (w h : Int) (θ : ℝ) (hw : (0 : Int) ≤ w) (hh : (0 : Int) ≤ h) :
    rotMaxY w h θ - rotMinY w h θ = |Real.sin θ| * w + |Real.cos θ| * h := by
  have hw' : (0 : ℝ) ≤ (w : ℝ) := by exact_mod_cast hw
  have hh' : (0 : ℝ) ≤ (h : ℝ) := by exact_mod_cast hh
  simp only [rotMaxY, rotMinY]
  rw [max4_sub_min4 (-Real.sin θ * w) (Real.cos θ * h)]
  rw [abs_mul, abs_mul, abs_of_nonneg hw', abs_of_nonneg hh', abs_neg]

/-- The expanded canvas of `rotate(angle, expand=True)` is at least as
wide and as tall as the bounding box of the rotated corners: nothing is
cropped. -/
theorem rotateExpandSize_contains (w h angle : Int) (hw : (0 : Int) ≤ w) (hh : (0 : Int) ≤ h) :
    rotMaxX w h (radiansOf angle) - rotMinX w h (radiansOf angle) ≤
      ((rotateExpandSize w h angle).1 : ℝ) ∧
    rotMaxY w h (radiansOf angle) - rotMinY w h (radiansOf angle) ≤
      ((rotateExpandSize w h angle).2 : ℝ) := by
  unfold rotateExpandSize
  by_cases h0 : angle.emod 360 = 0 ∨ angle.emod 360 = 180
  · rw [if_pos h0]
    rw [rotSpreadX w h _ hw hh, rotSpreadY w h _ hw hh]
    rcases h0 with h0 | h0
    · have hθ : radiansOf angle = 0 := by rw [radiansOf, h0]; norm_num
      rw [hθ]
      simp [Real.cos_zero, Real.sin_zero]
    · have hθ : radiansOf angle = Real.pi := by rw [radiansOf, h0]; push_cast; ring
      rw [hθ]
      simp [Real.cos_pi, Real.sin_pi]
  · rw [if_neg h0]
    by_cases h9 : angle.emod 360 = 90 ∨ angle.emod 360 = 270
    · rw [if_pos h9]
      rw [rotSpreadX w h _ hw hh, rotSpreadY w h _ hw hh]
      rcases h9 with h9 | h9
      · have hθ : radiansOf angle = Real.pi / 2 := by rw [radiansOf, h9]; push_cast; ring
        rw [hθ]
        simp [Real.cos_pi_div_two, Real.sin_pi_div_two]
      · have hθ : radiansOf angle = Real.pi + Real.pi / 2 := by rw [radiansOf, h9]; push_cast; ring
        rw [hθ, Real.cos_add, Real.sin_add]
        simp [Real.cos_pi, Real.sin_pi, Real.cos_pi_div_two, Real.sin_pi_div_two]
    · rw [if_neg h9]
      constructor
      · have h1 := Int.le_ceil (rotMaxX w h (radiansOf angle))
        have h2 := Int.floor_le (rotMinX w h (radiansOf angle))
        push_cast
        linarith
      · have h1 := Int.le_ceil (rotMaxY w h (radiansOf angle))
        have h2 := Int.floor_le (rotMinY w h (radiansOf angle))
        push_cast
        linarith

/-- Rotating a 10×10 image by 45 degrees with expansion yields a canvas
strictly larger than 10×10 in both directions. -/
theorem rotate45_canvas_exceeds :
    10 < (rotateExpandSize 10 10 45).1 ∧ 10 < (rotateExpandSize 10 10 45).2 := by
  have hm : (45 : Int).emod 360 = 45 := by decide
  have hθ : radiansOf 45 = Real.pi / 4 := by rw [radiansOf, hm]; push_cast; ring
  have hsqrt2 : (1 : ℝ) < Real.sqrt 2 := by
    nlinarith [Real.sq_sqrt (show (0 : ℝ) ≤ 2 by norm_num), Real.sqrt_nonneg 2]
  have habs : |Real.sqrt 2 / 2| = Real.sqrt 2 / 2 := abs_of_nonneg (by positivity)
  have hgx : (10 : ℝ) < rotMaxX 10 10 (radiansOf 45) - rotMinX 10 10 (radiansOf 45) := by
    rw [rotSpreadX 10 10 _ (by norm_num) (by norm_num), hθ,
      Real.cos_pi_div_four, Real.sin_pi_div_four, habs]
    push_cast
    nlinarith [hsqrt2]
  have hgy : (10 : ℝ) < rotMaxY 10 10 (radiansOf 45) - rotMinY 10 10 (radiansOf 45) := by
    rw [rotSpreadY 10 10 _ (by norm_num) (by norm_num), hθ,
      Real.cos_pi_div_four, Real.sin_pi_div_four, habs]
    push_cast
    nlinarith [hsqrt2]
  have hc := rotateExpandSize_contains 10 10 45 (by norm_num) (by norm_num)
  constructor
  · have : (10 : ℝ) < ((rotateExpandSize 10 10 45).1 : ℝ) := lt_of_lt_of_le hgx hc.1
    exact_mod_cast this
  · have : (10 : ℝ) < ((rotateExpandSize 10 10 45).2 : ℝ) := lt_of_lt_of_le hgy hc.2
    exact_mod_cast this

/-- C8: a rotate request that passes validation and image parsing (with
a JPEG-writable mode) succeeds, producing `rotate(angle, expand=True)`
of the parsed image (counter-clockwise for positive angles in the
modelled rotation matrix); the expanded canvas always contains the
bounding box of the rotated corners (no cropping), and a 10×10 image
rotated by 45 yields a canvas strictly larger than 10×10. -/
theorem c8_rotate_expands_canvas (data : Data) (a : Int)
    (bs : List Nat) (img : PILImage)
    (hi : data.containsKey "image" = true)
    (ht : data.containsKey "transformation_type" = true)
    (hty : pyGet data "transformation_type" = .str "rotate")
    (ha : pyGet data "rotation_angle" = .int a)
    (hdec : b64decodeJ (pyGet data "image") = .ok bs)
    (hopen : imageOpen bs = .ok img)
    (hmode : img.mode = "L" ∨ img.mode = "RGB") :
    postTransform data = .ok ⟨⟨"JPEG", pilRotate img a⟩⟩ ∧
    (∀ (w h angle : Int), (0 : Int) ≤ w → (0 : Int) ≤ h →
      rotMaxX w h (radiansOf angle) - rotMinX w h (radiansOf angle) ≤
        ((rotateExpandSize w h angle).1 : ℝ) ∧
      rotMaxY w h (radiansOf angle) - rotMinY w h (radiansOf angle) ≤
        ((rotateExpandSize w h angle).2 : ℝ)) ∧
    10 < (rotateExpandSize 10 10 45).1 ∧ 10 < (rotateExpandSize 10 10 45).2 := by
  refine ⟨?_, fun w h angle hw hh => rotateExpandSize_contains w h angle hw hh,
    rotate45_canvas_exceeds⟩
  have hval : validate_input data = .ok data := by
    simp [validate_input, missing_fields_nil hi ht, hty, ha]
  rw [validate_ok_post hval]
  have haD : pyGetD data "rotation_angle" (.int 0) = .int a := pyGetD_of_pyGet ha (by simp)
  rcases hmode with hm | hm <;>
    simp [transform_image, transform_body, hdec, hopen, process_image, hty, haD,
      pyAsInt, jpegSave, pilRotate, hm]

/-- C8 witness: a 10×10 RGB PNG rotated by 90 degrees succeeds with the
expanded-rotation output, and the 45-degree canvas facts hold. -/
theorem c8_rotate_expands_canvas_witness :
    postTransform [("image", JVal.str png10), ("transformation_type", JVal.str "rotate"),
        ("rotation_angle", JVal.int 90)] =
      .ok ⟨⟨"JPEG", pilRotate ⟨10, 10, "RGB"⟩ 90⟩⟩ ∧
    (10 < (rotateExpandSize 10 10 45).1 ∧ 10 < (rotateExpandSize 10 10 45).2) :=
  ⟨(c8_rotate_expands_canvas
      [("image", JVal.str png10), ("transformation_type", JVal.str "rotate"),
       ("rotation_angle", JVal.int 90)]
      90 png10Bytes ⟨10, 10, "RGB"⟩ rfl rfl rfl rfl rfl rfl (Or.inr rfl)).1,
   (c8_rotate_expands_canvas
      [("image", JVal.str png10), ("transformation_type", JVal.str "rotate"),
       ("rotation_angle", JVal.int 90)]
      90 png10Bytes ⟨10, 10, "RGB"⟩ rfl rfl rfl rfl rfl rfl (Or.inr rfl)).2.2⟩

end ImageAPI
